import Mathlib

/-!
Verification of the Dangoware music player front end (TypeScript, Tauri)
against its natural-language specification.

The definitions below are a shallow embedding of the front-end source:
`src/src/App.tsx`, `src/src/components/PlayBar.tsx` and the companion
component files (`PlaylistHead`, `Queue`, `NowPlaying`, `MainView`, the
type bindings in `types.ts` / `bindings/`).  JavaScript numbers are
modelled as exact rationals (`ℚ`), `Math.round` as Mathlib's `round`
(both are floor of `x + 1/2`), optional fields as `Option`, and the
Tauri `invoke` calls as values of an explicit `Command` type.  The
backend engine (queue / playback controller) is not part of the front-end
sources; where a claim depends on it, the relevant operation is modelled
from the specification and marked as such in its doc comment.
-/

namespace DMP

/-- PlayerLocation binding (`bindings/PlayerLocation`, used as
`"Library" | { Playlist : string }` in `App.tsx`): the logical collection
a song instance came from. -/
inductive PlayerLocation where
  | Library : PlayerLocation
  | Playlist : String → PlayerLocation
deriving DecidableEq, Repr

/-- The tag map fields the front end reads (`payload.tags.Title`,
`payload.tags.Artist`, `payload.tags.Album` in the `now_playing_change`
listener of `components/App.tsx`); each tag may be absent. -/
structure SongTags where
  Title : Option String
  Artist : Option String
  Album : Option String
deriving DecidableEq, Repr

/-- Song binding (`types.ts` interface `Song`), restricted to the fields
the front-end components read: `uuid`, `plays`, `duration`, `tags`. -/
structure Song where
  uuid : String
  plays : Nat
  duration : ℚ
  tags : SongTags
deriving DecidableEq, Repr

/-- PlaylistInfo binding (`components/PlaylistHead.tsx` interface
`PlaylistInfo`): `uuid` and `name` of a playlist. -/
structure PlaylistInfo where
  uuid : String
  name : String
deriving DecidableEq, Repr

/-- Configlibrary binding (`types.ts`): one configured library. -/
structure Configlibrary where
  name : String
  path : String
  uuid : String
deriving DecidableEq, Repr

/-- ConfigLibraries binding (`types.ts`). -/
structure ConfigLibraries where
  default_library : String
  library_folder : String
  libraries : List Configlibrary
deriving DecidableEq, Repr

/-- Config binding (`types.ts`), restricted to the fields `getConfig`
reads. -/
structure Config where
  path : String
  libraries : ConfigLibraries
  volume : ℚ
deriving DecidableEq, Repr

/-- Commands the front end issues through Tauri `invoke`, with the
payload each call carries in the source. -/
inductive Command where
  | getQueue : Command
  | getPlaylist : String → Command
  | playNow : String → PlayerLocation → Command
  | removeFromQueue : Int → Command
  | seek : Int → Command
  | setVolume : String → Command
  | createNewLibrary : Command
  | libAlreadyCreated : Command
  | displayAlbumArt : String → Command
deriving DecidableEq, Repr

/-! ### Startup configuration dispatch (`getConfig` in `App.tsx`) -/

/-- Embedding of `getConfig` (`src/src/App.tsx` lines 441-451 and
`components/App.tsx`): after fetching the config it invokes
`create_new_library` when `config.libraries.libraries.length == 0`
and `lib_already_created` otherwise.  The returned list is the list of
commands the handler issues, in order. -/
def getConfigCommands (config : Config) : List Command :=
  if config.libraries.libraries.length == 0 then
    [Command.createNewLibrary]
  else
    [Command.libAlreadyCreated]

/-! ### The `playback_info` listener (`components/PlayBar.tsx` lines 21-32) -/

/-- Payload type `playbackInfo` (`types.ts`): both fields are optional
two-element tuples (`position?: [number, number]`). -/
structure PlaybackInfoPayload where
  position : Option (ℚ × ℚ)
  duration : Option (ℚ × ℚ)
deriving DecidableEq, Repr

/-- JavaScript `Array.isArray` applied to a field of `playbackInfo`:
true exactly when the optional tuple is present. -/
def jsIsArray (field : Option (ℚ × ℚ)) : Bool :=
  field.isSome

/-- JavaScript indexing `field![0]`: the first element of the tuple when
present; indexing an absent value yields no result. -/
def jsIndexZero (field : Option (ℚ × ℚ)) : Option ℚ :=
  field.map Prod.fst

/-- One branch of the listener body
`Array.isArray(info.position) ? info.position![0] : 0`:
the guarded extraction, with `0` on the non-array branch.  The default
of `getD` is unreachable because the dereference sits under the
`jsIsArray` guard (`jsIndexZero_isSome_eq_jsIsArray`). -/
def playbackField (field : Option (ℚ × ℚ)) : ℚ :=
  if jsIsArray field then (jsIndexZero field).getD 0 else 0

/-- The `playback_info` listener of `components/PlayBar.tsx`: computes
the pair `(pos_, dur_)` stored by `setPosition` / `setDuration`. -/
def playbackInfoHandler (info : PlaybackInfoPayload) : ℚ × ℚ :=
  (playbackField info.position, playbackField info.duration)

/-- Spec-side description of one field: the first component when the
field is an array, `0` otherwise. -/
def playbackFieldSpec (field : Option (ℚ × ℚ)) : ℚ :=
  match field with
  | some p => p.1
  | none => 0

/-! ### The `queue_updated` listener (`src/src/App.tsx` lines 51-69)

On every `queue_updated` event the listener invokes `get_queue`, then
sets the rendered queue to
`songs.filter((_, i) => i != 0).map((song, i) => <QueueSong ... index={i+1} ...>)`.
-/

/-- JavaScript `Array.prototype.filter` with the callback applied to the
element index, as in `songs.filter((_, i) => i != 0)`: keep the elements
whose index satisfies the predicate. -/
def filterByIndex (p : Nat → Bool) (xs : List α) : List α :=
  (xs.enum.filter (fun e => p e.1)).map Prod.snd

/-- Props of one rendered `QueueSong` element (`src/src/App.tsx`
interface `QueueSongProps`): the entry's song, its `PlayerLocation`, and
the `index` prop the remove / play-now callbacks use. -/
structure QueueSongProps where
  song : Song
  location : PlayerLocation
  index : Nat
deriving DecidableEq, Repr

/-- The command the `queue_updated` listener issues before rendering. -/
def queueUpdatedFetch : Command := Command.getQueue

/-- The rendered queue computed by the `queue_updated` listener from the
`get_queue` response: filter out index 0, then map each remaining entry
at post-filter position `i` to a `QueueSong` with `index = i + 1`. -/
def queueSongs (songs : List (Song × PlayerLocation)) : List QueueSongProps :=
  ((filterByIndex (fun i => i != 0) songs).enum).map
    (fun e => { song := e.2.1, location := e.2.2, index := e.1 + 1 })

/-- The `removeFromQueue` callback of `QueueSong`
(`src/src/App.tsx` lines 422-424): `invoke('remove_from_queue', { index })`. -/
def queueSongRemoveCommand (props : QueueSongProps) : Command :=
  Command.removeFromQueue props.index

/-- The `playNow` callback of `QueueSong`
(`src/src/App.tsx` lines 426-428): `invoke('play_now', { uuid, location })`. -/
def queueSongPlayNowCommand (props : QueueSongProps) : Command :=
  Command.playNow props.song.uuid props.location

/-- Modelled from the spec: the backend `remove_from_queue` operation is
not part of the front-end sources; the specification says `remove(index)`
fails with `OutOfRange` if `index ≤ 0` or beyond length.  This is the
low half of that condition. -/
def removeIndexOutOfRangeLow (index : Int) : Prop :=
  index ≤ 0

instance (index : Int) : Decidable (removeIndexOutOfRangeLow index) :=
  inferInstanceAs (Decidable (index ≤ 0))

/-! ### Backend engine operations modelled from the specification

The backend (queue / playback controller) is a separate process-side
component whose sources are not part of the front end; the front end
only issues the commands.  The operations a claim depends on are
modelled from the specification text. -/

/-- Transport status of the PlaybackState (spec section 3). -/
inductive PlayStatus where
  | Stopped : PlayStatus
  | Playing : PlayStatus
  | Paused : PlayStatus
deriving DecidableEq, Repr

/-- Modelled from the spec: the engine state the missing backend owns —
the queue of `(song uuid, PlayerLocation)` entries (entry 0 is the
active entry), the transport status, and the Playback Controller's
now-playing reference. -/
structure EngineState where
  queue : List (String × PlayerLocation)
  status : PlayStatus
  nowPlaying : Option (String × PlayerLocation)
deriving DecidableEq, Repr

/-- Modelled from the spec: the missing backend operation
`play_now(song_uuid, location)` inserts at index 0 (replacing the
previous head) without disturbing the remainder of the queue order, and
signals the Playback Controller to begin playing it immediately, so the
now-playing reference is retargeted to the new head and the status
becomes Playing. -/
def play_now (uuid : String) (loc : PlayerLocation) (st : EngineState) :
    EngineState :=
  { queue := (uuid, loc) :: st.queue.drop 1
    status := PlayStatus.Playing
    nowPlaying := some (uuid, loc) }

/-- The `onDoubleClick` handler of `Song` (`src/src/App.tsx` lines
293-299): `invoke("play_now", { uuid, location })` with the song's uuid
and its `playerLocation` prop. -/
def songDoubleClickCommand (uuid : String) (playerLocation : PlayerLocation) :
    Command :=
  Command.playNow uuid playerLocation

/-! ### The seek bar (`components/PlayBar.tsx` lines 34-40)

The `seek` handler reads the bounding box of the seek bar, computes
`val = ((clientX - rect.left) / rect.width) * duration` and sends
`invoke('seek', { time: Math.round(val * 1000) })`.  JavaScript numbers
are modelled as exact rationals; `Math.round x` is `⌊x + 1/2⌋`, which is
Mathlib's `round`. -/

/-- The millisecond value the `seek` handler sends. -/
def seekTimeMs (clientX left width duration : ℚ) : ℤ :=
  round (((clientX - left) / width) * duration * 1000)

/-- The command the `seek` handler issues. -/
def seekCommand (clientX left width duration : ℚ) : Command :=
  Command.seek (seekTimeMs clientX left width duration)

/-! ### The `playing` / `paused` listeners and the play/pause control

From the App variant with separate transport listeners
(`src/unnamed/part_002` lines 67-79) and the `PlayBar` play/pause
button. -/

/-- Event names the App component subscribes to via `appWindow.listen`. -/
def appSubscribedEvents : List String :=
  ["now_playing_change", "queue_updated", "playing", "paused"]

/-- The `playing` listener body: `setPlaying(true)`. -/
def onPlayingEvent (_playing : Bool) : Bool := true

/-- The `paused` listener body: `setPlaying(false)`. -/
def onPausedEvent (_playing : Bool) : Bool := false

/-- The play/pause control label in `PlayBar`: the pause symbol when the
`playing` state is true, the play symbol otherwise. -/
def playPauseSymbol (playing : Bool) : String :=
  if playing then "⏸" else "⏵"

/-! ### The `now_playing_change` listener and the NowPlaying panel

From `src/unnamed/part_006` lines 48-65 (the listener) and
`src/unnamed/part_008` lines 8-19 (the `NowPlaying` component). -/

/-- JavaScript truthiness of a `string | undefined` value: `undefined`
and the empty string are falsy, every other string is truthy. -/
def jsTruthyString : Option String → Bool
  | none => false
  | some s => s != ""

/-- Props the `now_playing_change` listener passes to `NowPlaying`: the
payload's Title/Artist/Album tags and an artwork element whose source is
queried and keyed by the payload's uuid. -/
structure NowPlayingProps where
  title : Option String
  artist : Option String
  album : Option String
  artworkQuery : String
deriving DecidableEq, Repr

/-- The listener body: builds the `NowPlaying` props from the payload. -/
def nowPlayingPropsOf (payload : Song) : NowPlayingProps :=
  { title := payload.tags.Title
    artist := payload.tags.Artist
    album := payload.tags.Album
    artworkQuery := payload.uuid }

/-- What the `NowPlaying` panel displays. -/
structure NowPlayingView where
  heading : String
  artistText : Option String
  albumText : Option String
  artworkQuery : String
deriving DecidableEq, Repr

/-- The `NowPlaying` component: the heading is
`title ? title : "Unknown Title"` (JavaScript truthiness); artist and
album are rendered as given; the artwork keeps its uuid query. -/
def renderNowPlaying (props : NowPlayingProps) : NowPlayingView :=
  { heading :=
      if jsTruthyString props.title then props.title.getD "" else "Unknown Title"
    artistText := props.artist
    albumText := props.album
    artworkQuery := props.artworkQuery }

/-- The panel shown after a `now_playing_change` event with payload
`payload`. -/
def nowPlayingChangeView (payload : Song) : NowPlayingView :=
  renderNowPlaying (nowPlayingPropsOf payload)

/-- Claim-side title display: the Title tag whenever it is present,
"Unknown Title" only when it is absent. -/
def claimedTitleDisplay (title : Option String) : String :=
  title.getD "Unknown Title"

/-! ### Playlist import (`components/PlaylistHead.tsx` lines 174-184) -/

/-- One playlist button as rendered by `PlaylistHead`: its React key,
its label, and the command its activation issues. -/
structure PlaylistButton where
  key : String
  label : String
  onClick : Command
deriving DecidableEq, Repr

/-- The button `handle_import` builds for the `PlaylistInfo` returned by
`import_playlist`: key `playlist_` + uuid, label `res.name`, and
`onClick = () => getPlaylist(res)`, which invokes `get_playlist` with
`res.uuid`. -/
def importedPlaylistButton (res : PlaylistInfo) : PlaylistButton :=
  { key := "playlist_" ++ res.uuid
    label := res.name
    onClick := Command.getPlaylist res.uuid }

/-- The `handle_import` continuation after a successful
`import_playlist`: `setPlaylists([...playlists, <button .../>])`. -/
def handleImport (playlists : List PlaylistButton) (res : PlaylistInfo) :
    List PlaylistButton :=
  playlists ++ [importedPlaylistButton res]

/-! ### The volume controls (`components/PlayBar.tsx` lines 42-50, 77-79)

The slider is `<input type="range" name="volume" id="volumeSlider" ...>`
with no `min`, `max` or `step` attributes, so the HTML defaults apply:
min 0, max 100, step 1 — its values are integers in [0, 100]. -/

/-- Default `min` of an HTML range input. -/
def volumeSliderMin : ℤ := 0

/-- Default `max` of an HTML range input. -/
def volumeSliderMax : ℤ := 100

/-- `HTMLInputElement.stepUp(n)` on the slider: add `n` steps of the
default step 1, clamped to the maximum. -/
def sliderStepUp (n v : ℤ) : ℤ := min volumeSliderMax (v + n)

/-- `HTMLInputElement.stepDown(n)` on the slider: subtract `n` steps,
clamped to the minimum. -/
def sliderStepDown (n v : ℤ) : ℤ := max volumeSliderMin (v - n)

/-- The slider value after `wheelVolume`: `stepUp(5)` on wheel-up
(`deltaY < 0`), `stepDown(5)` otherwise; its string encoding is what
`invoke('set_volume', { volume: valueAsNumber.toString() })` carries. -/
def wheelVolumeSent (deltaY v : ℤ) : ℤ :=
  if deltaY < 0 then sliderStepUp 5 v else sliderStepDown 5 v

/-- The command `wheelVolume` issues. -/
def wheelVolumeCommand (deltaY v : ℤ) : Command :=
  Command.setVolume (toString (wheelVolumeSent deltaY v))

/-- The slider `onChange` handler:
`invoke('set_volume', { volume: volume.target.value })` — the string
encoding of the slider's current value. -/
def sliderChangeCommand (v : ℤ) : Command :=
  Command.setVolume (toString v)

/-- Claim-side predicate: a level within 0.0 – 1.0. -/
def levelWithinUnit (level : ℚ) : Prop := 0 ≤ level ∧ level ≤ 1

instance (level : ℚ) : Decidable (levelWithinUnit level) :=
  inferInstanceAs (Decidable (0 ≤ level ∧ level ≤ 1))

/-! Sample data used to instantiate theorems with hypotheses. -/

/-- Song whose Title tag is present but equal to the empty string. -/
def emptyTitleSong : Song :=
  { uuid := "uuid-e", plays := 0, duration := 1,
    tags := { Title := some "", Artist := some "ArtE", Album := some "AlbE" } }

/-- Sample song for concrete instantiations. -/
def sampleSongA : Song :=
  { uuid := "uuid-a", plays := 0, duration := 200,
    tags := { Title := some "Alpha", Artist := some "ArtA", Album := some "AlbA" } }

/-- Second sample song for concrete instantiations. -/
def sampleSongB : Song :=
  { uuid := "uuid-b", plays := 0, duration := 180,
    tags := { Title := some "Beta", Artist := some "ArtB", Album := some "AlbB" } }

/-- Sample `get_queue` response: head entry plus one tail entry. -/
def sampleQueue : List (Song × PlayerLocation) :=
  [(sampleSongA, PlayerLocation.Library), (sampleSongB, PlayerLocation.Library)]

/-! Helper lemmas about `List.enumFrom` / `List.enum`. -/

theorem enumFrom_filter_pos_ne_zero (t : List α) :
    ∀ n : Nat, 0 < n →
      (t.enumFrom n).filter (fun e => e.1 != 0) = t.enumFrom n := by
  induction t with
  | nil => intro n _; rfl
  | cons x xs ih =>
      intro n hn
      simp only [List.enumFrom, List.filter]
      have hx : (n != 0) = true := by
        simp [Nat.pos_iff_ne_zero.mp hn]
      simp only [hx]
      rw [ih (n + 1) (Nat.succ_pos n)]

theorem enumFrom_map_snd_eq (t : List α) :
    ∀ n : Nat, (t.enumFrom n).map Prod.snd = t := by
  induction t with
  | nil => intro n; rfl
  | cons x xs ih =>
      intro n
      simp only [List.enumFrom, List.map, ih (n + 1)]

theorem filterByIndex_ne_zero (xs : List α) :
    filterByIndex (fun i => i != 0) xs = xs.drop 1 := by
  cases xs with
  | nil => rfl
  | cons x t =>
      unfold filterByIndex
      have henum : (x :: t).enum = (0, x) :: t.enumFrom 1 := rfl
      rw [henum]
      simp only [List.filter]
      rw [enumFrom_filter_pos_ne_zero t 1 Nat.one_pos]
      simp [enumFrom_map_snd_eq t 1]

theorem enumFrom_getElem? (t : List α) :
    ∀ (n j : Nat), (t.enumFrom n)[j]? = t[j]?.map (fun a => (n + j, a)) := by
  induction t with
  | nil => intro n j; simp [List.enumFrom]
  | cons x xs ih =>
      intro n j
      cases j with
      | zero => simp [List.enumFrom]
      | succ k =>
          simp only [List.enumFrom, List.getElem?_cons_succ, ih (n + 1) k]
          cases xs[k]? with
          | none => rfl
          | some a => simp [Nat.add_assoc, Nat.add_comm 1 k]

end DMP

namespace DMP

/-- C10: when the startup configuration is fetched, `getConfig` issues
exactly one command: `create_new_library` precisely when the configured
library list is empty, and `lib_already_created` precisely when it is
not; never both and never neither. -/
theorem getConfig_invokes_exactly_one (config : Config) :
    (getConfigCommands config).length = 1 ∧
    (getConfigCommands config = [Command.createNewLibrary] ↔
      config.libraries.libraries = []) ∧
    (getConfigCommands config = [Command.libAlreadyCreated] ↔
      config.libraries.libraries ≠ []) ∧
    ¬ (Command.createNewLibrary ∈ getConfigCommands config ∧
       Command.libAlreadyCreated ∈ getConfigCommands config) := by
  unfold getConfigCommands
  rcases h : config.libraries.libraries with _ | ⟨l, ls⟩ <;>
    simp [List.length_eq_zero]

/-- C9: the `playback_info` handler is a total function of the payload;
the displayed position and duration equal the first component of the
corresponding field when that field is an array and `0` otherwise, and
the guarded dereference `field![0]` succeeds exactly when the
`Array.isArray` guard holds, so an absent field is never dereferenced. -/
theorem playbackInfoHandler_total_and_correct :
    (∀ info : PlaybackInfoPayload,
      playbackInfoHandler info =
        (playbackFieldSpec info.position, playbackFieldSpec info.duration)) ∧
    (∀ field : Option (ℚ × ℚ), (jsIndexZero field).isSome = jsIsArray field) := by
  constructor
  · intro info
    unfold playbackInfoHandler playbackField playbackFieldSpec
    rcases info with ⟨pos, dur⟩
    rcases pos with _ | p <;> rcases dur with _ | q <;>
      simp [jsIsArray, jsIndexZero]
  · intro field
    rcases field with _ | p <;> simp [jsIsArray, jsIndexZero]

/-- C2: on a `queue_updated` event the listener fetches the queue with
`get_queue` and renders exactly the entries at indices 1..n-1 of the
response, in their original order — the entry at index 0 is excluded. -/
theorem queueUpdated_renders_tail (songs : List (Song × PlayerLocation)) :
    queueUpdatedFetch = Command.getQueue ∧
    (queueSongs songs).map (fun props => (props.song, props.location)) =
      songs.drop 1 := by
  refine ⟨rfl, ?_⟩
  unfold queueSongs
  rw [filterByIndex_ne_zero]
  rw [List.map_map]
  exact enumFrom_map_snd_eq (songs.drop 1) 0

/-- C3: the tail entry of the `get_queue` response at underlying 0-based
index `j` (with `j ≥ 1`) is rendered at UI position `j` (position `j-1`
of the rendered list) with `index` prop `j`; the `remove_from_queue`
command issued for it carries index `j`; and every `remove_from_queue`
command issued from the queue view has index ≥ 1, so the `OutOfRange`
condition for index ≤ 0 is unreachable for those commands. -/
theorem queue_remove_indices_safe (songs : List (Song × PlayerLocation))
    (j : Nat) (hj : 1 ≤ j) (hlen : j < songs.length) :
    (queueSongs songs)[j-1]? =
      some { song := (songs.get ⟨j, hlen⟩).1,
             location := (songs.get ⟨j, hlen⟩).2, index := j } ∧
    ((queueSongs songs)[j-1]?).map queueSongRemoveCommand =
      some (Command.removeFromQueue (j : Int)) ∧
    (∀ props ∈ queueSongs songs,
      1 ≤ props.index ∧ ¬ removeIndexOutOfRangeLow (props.index : Int)) := by
  have hdrop : (songs.drop 1).length = songs.length - 1 := by
    simp
  have hq : (queueSongs songs)[j-1]? =
      some { song := (songs.get ⟨j, hlen⟩).1,
             location := (songs.get ⟨j, hlen⟩).2, index := j } := by
    unfold queueSongs
    rw [filterByIndex_ne_zero]
    rw [List.getElem?_map]
    have henum : ((songs.drop 1).enum)[j-1]? =
        ((songs.drop 1)[j-1]?).map (fun a => (0 + (j-1), a)) :=
      enumFrom_getElem? (songs.drop 1) 0 (j-1)
    rw [henum]
    have hdropget : (songs.drop 1)[j-1]? = songs[1 + (j-1)]? := by
      rw [List.getElem?_drop]
    rw [hdropget]
    have hidx : 1 + (j - 1) = j := by omega
    rw [hidx]
    rw [List.getElem?_eq_getElem hlen]
    have hj0 : 0 + (j - 1) + 1 = j := by omega
    simp [hj0, List.get_eq_getElem]
    omega
  refine ⟨hq, ?_, ?_⟩
  · rw [hq]
    simp [queueSongRemoveCommand]
  · intro props hmem
    unfold queueSongs at hmem
    rcases List.mem_map.mp hmem with ⟨e, _, rfl⟩
    refine ⟨Nat.le_add_left 1 e.1, ?_⟩
    simp only [removeIndexOutOfRangeLow]
    omega

/-- Closed instantiation of `queue_remove_indices_safe` on the sample
queue at tail index 1. -/
theorem queue_remove_indices_safe_witness :
    (queueSongs sampleQueue)[0]? =
      some { song := (sampleQueue.get ⟨1, by decide⟩).1,
             location := (sampleQueue.get ⟨1, by decide⟩).2, index := 1 } ∧
    ((queueSongs sampleQueue)[0]?).map queueSongRemoveCommand =
      some (Command.removeFromQueue (1 : Int)) ∧
    (∀ props ∈ queueSongs sampleQueue,
      1 ≤ props.index ∧ ¬ removeIndexOutOfRangeLow (props.index : Int)) :=
  queue_remove_indices_safe sampleQueue 1 (by decide) (by decide)

/-- C1: after `play_now` with `(s, loc)` completes, the queue's entry at
index 0 equals `(s, loc)`, the Playback Controller's now-playing
reference is that same entry, and the playback status is Playing; the
UI double-click handlers issue exactly this command. -/
theorem play_now_head_and_playing (s : String) (loc : PlayerLocation)
    (st : EngineState) :
    (play_now s loc st).queue[0]? = some (s, loc) ∧
    (play_now s loc st).nowPlaying = (play_now s loc st).queue[0]? ∧
    (play_now s loc st).status = PlayStatus.Playing ∧
    songDoubleClickCommand s loc = Command.playNow s loc := by
  refine ⟨?_, ?_, rfl, rfl⟩ <;> simp [play_now]

/-- C4: a click or drag on the seek bar at horizontal fraction
`f = (clientX - left) / width` of its width (with `0 ≤ f ≤ 1`) while
the displayed duration is `d` seconds sends a `seek` command whose time
is the integer `round (f * d * 1000)` milliseconds, which never exceeds
`round (d * 1000)`. -/
theorem seek_sends_rounded_clamped_ms (clientX left width d : ℚ)
    (_h0 : 0 ≤ (clientX - left) / width) (h1 : (clientX - left) / width ≤ 1)
    (hd : 0 ≤ d) :
    seekCommand clientX left width d =
      Command.seek (round ((clientX - left) / width * d * 1000)) ∧
    seekTimeMs clientX left width d ≤ round (d * 1000) := by
  refine ⟨rfl, ?_⟩
  have hle : (clientX - left) / width * d * 1000 ≤ d * 1000 := by nlinarith
  unfold seekTimeMs
  rw [round_eq, round_eq]
  exact Int.floor_le_floor (by linarith)

/-- Closed instantiation of `seek_sends_rounded_clamped_ms`: a click at
the midpoint of the bar with duration 4 s. -/
theorem seek_sends_rounded_clamped_ms_witness :
    ((0:ℚ) ≤ ((1:ℚ) - 0) / 2 ∧ ((1:ℚ) - 0) / 2 ≤ 1 ∧ (0:ℚ) ≤ 4) ∧
    (seekCommand 1 0 2 4 =
      Command.seek (round (((1:ℚ) - 0) / 2 * 4 * 1000)) ∧
     seekTimeMs 1 0 2 4 ≤ round ((4:ℚ) * 1000)) :=
  ⟨⟨by norm_num, by norm_num, by norm_num⟩,
   seek_sends_rounded_clamped_ms 1 0 2 4 (by norm_num) (by norm_num)
     (by norm_num)⟩

/-- C5: the UI subscribes to both the `playing` and the `paused` events;
after a `playing` event the play/pause control shows the pause symbol,
and after a `paused` event it shows the play symbol. -/
theorem playing_paused_listeners_set_symbol :
    "playing" ∈ appSubscribedEvents ∧
    "paused" ∈ appSubscribedEvents ∧
    (∀ s : Bool, playPauseSymbol (onPlayingEvent s) = "⏸") ∧
    (∀ s : Bool, playPauseSymbol (onPausedEvent s) = "⏵") := by
  refine ⟨?_, ?_, fun s => rfl, fun s => rfl⟩ <;> simp [appSubscribedEvents]

/-- C6 counterexample: a song whose Title tag is present but empty is
displayed as "Unknown Title", not as its (empty) Title tag, so the
claim's fallback condition "when the tag is absent" is too narrow. -/
theorem nowPlaying_title_counterexample :
    emptyTitleSong.tags.Title = some "" ∧
    (nowPlayingChangeView emptyTitleSong).heading ≠
      claimedTitleDisplay emptyTitleSong.tags.Title := by
  decide

/-- C6 amended: upon a `now_playing_change` event with song `payload`,
the panel heading is the Title tag, falling back to "Unknown Title" when
the tag is absent or is the empty string; the Artist and Album tags are
displayed as given, and the artwork is addressed by the song's uuid. -/
theorem nowPlaying_view_correct (payload : Song) :
    (nowPlayingChangeView payload).heading =
      (match payload.tags.Title with
        | none => "Unknown Title"
        | some t => if t = "" then "Unknown Title" else t) ∧
    (nowPlayingChangeView payload).artistText = payload.tags.Artist ∧
    (nowPlayingChangeView payload).albumText = payload.tags.Album ∧
    (nowPlayingChangeView payload).artworkQuery = payload.uuid := by
  unfold nowPlayingChangeView renderNowPlaying nowPlayingPropsOf
  rcases h : payload.tags.Title with _ | t
  · simp [jsTruthyString, h]
  · by_cases ht : t = "" <;> simp [jsTruthyString, h, ht]

/-- C7: after a successful `import_playlist` returning `res`, the UI
appends exactly one playlist button: the button list grows by one, the
existing buttons are unchanged, and the new last button is labeled
`res.name` and fetches `get_playlist` with `res.uuid` on activation. -/
theorem import_appends_one_button (playlists : List PlaylistButton)
    (res : PlaylistInfo) :
    (handleImport playlists res).length = playlists.length + 1 ∧
    (handleImport playlists res).take playlists.length = playlists ∧
    (handleImport playlists res).getLast? = some (importedPlaylistButton res) ∧
    (importedPlaylistButton res).label = res.name ∧
    (importedPlaylistButton res).onClick = Command.getPlaylist res.uuid := by
  refine ⟨by simp [handleImport], ?_, ?_, rfl, rfl⟩
  · simp [handleImport, List.take_left]
  · simp [handleImport]

/-- C8 counterexample: with the slider at value 95 (a valid slider
state), one wheel-up steps it to 100 and sends `set_volume` with the
string "100" — the string encoding of the level 100, which is not a
level within 0.0 – 1.0. -/
theorem setVolume_unit_range_counterexample :
    (volumeSliderMin ≤ 95 ∧ (95:ℤ) ≤ volumeSliderMax) ∧
    wheelVolumeSent (-1) 95 = 100 ∧
    wheelVolumeCommand (-1) 95 = Command.setVolume "100" ∧
    ¬ levelWithinUnit ((wheelVolumeSent (-1) 95 : ℤ) : ℚ) := by
  refine ⟨by decide, by decide, rfl, ?_⟩
  intro h
  have hsent : wheelVolumeSent (-1) 95 = 100 := by decide
  rw [hsent] at h
  exact absurd h.2 (by norm_num)

/-- C8 amended: every `set_volume` command issued by the volume controls
carries the string encoding of the slider's value, an integer within
0 – 100 (the HTML range-input defaults), not a level within 0.0 – 1.0;
the wheel handler keeps the value within 0 – 100. -/
theorem setVolume_sends_slider_value (deltaY v : ℤ)
    (hmin : volumeSliderMin ≤ v) (hmax : v ≤ volumeSliderMax) :
    sliderChangeCommand v = Command.setVolume (toString v) ∧
    volumeSliderMin ≤ wheelVolumeSent deltaY v ∧
    wheelVolumeSent deltaY v ≤ volumeSliderMax ∧
    wheelVolumeCommand deltaY v =
      Command.setVolume (toString (wheelVolumeSent deltaY v)) := by
  refine ⟨rfl, ?_, ?_, rfl⟩ <;>
    simp only [wheelVolumeSent, sliderStepUp, sliderStepDown,
      volumeSliderMin, volumeSliderMax] at * <;>
    split <;>
    simp [min_def, max_def] <;>
    split <;>
    omega

/-- Closed instantiation of `setVolume_sends_slider_value` at the HTML
default slider value 50 with a wheel-up. -/
theorem setVolume_sends_slider_value_witness :
    (volumeSliderMin ≤ (50:ℤ) ∧ (50:ℤ) ≤ volumeSliderMax) ∧
    (sliderChangeCommand 50 = Command.setVolume (toString (50:ℤ)) ∧
     volumeSliderMin ≤ wheelVolumeSent (-1) 50 ∧
     wheelVolumeSent (-1) 50 ≤ volumeSliderMax ∧
     wheelVolumeCommand (-1) 50 =
       Command.setVolume (toString (wheelVolumeSent (-1) 50))) :=
  ⟨⟨by decide, by decide⟩,
   setVolume_sends_slider_value (-1) 50 (by decide) (by decide)⟩

end DMP
